import Mathlib

/-!
Shallow embedding of the pricing computation engine of the ce_pricing_ksa
repository (the final engine variant: getNetFactor, convertToSAR and
calculatePricing, together with the constants they import).

JS numbers are modelled as exact rationals (ℚ); decimal literals such as
0.95 or 3.76 elaborate to the exact rationals 19/20 and 94/25.  JS record
lookups (productInputs, productRates, renewalUpliftRates, the variant
catalogs) are modelled as association lists; a missing key behaves exactly
as the source's fallbacks (defaulted record, fallback array, 0).  The JS
falsy-fallback idioms are preserved: an absent existingVariant is encoded
as the empty string (undefined and the empty string are both falsy in
inputs.existingVariant || inputs.variant), and a missing numeric entry
defaults to 0 just as x || 0 does for undefined (for a present 0 both
readings agree).  The free-text notes array of the output is display glue
and is not modelled; every numeric and boolean field of the output is.
-/

namespace CePricing

/-- enum DealType of the source. -/
inductive DealType where
  | NEW_LOGO
  | RENEWAL
deriving DecidableEq, Repr

/-- enum ChannelType of the source. -/
inductive ChannelType where
  | DIRECT
  | FULFILMENT
  | PARTNER_SOURCED
deriving DecidableEq, Repr

/-- enum PricingMethod of the source. -/
inductive PricingMethod where
  | MYPP
  | MYFPI
deriving DecidableEq, Repr

/-- ProductInput of the source (types file).  The fields dph and
forceHeadcountOverride are never read by the final engine and are omitted.
existingVariant = "" encodes a JS-absent (or empty) value. -/
structure ProductInput where
  count : ℚ
  variant : String
  baseDiscount : ℚ
  expiringAmount : ℚ
  existingVariant : String
  changeInStats : Bool
deriving DecidableEq, Repr

/-- The defaulted record the engine substitutes for a missing
productInputs entry: { count: 0, variant: "", baseDiscount: 0,
expiringAmount: 0 } (absent fields are falsy). -/
def defaultProductInput : ProductInput :=
  { count := 0, variant := "", baseDiscount := 0, expiringAmount := 0,
    existingVariant := "", changeInStats := false }

/-- DealConfiguration of the source (final variant). -/
structure DealConfiguration where
  dealType : DealType
  channel : ChannelType
  selectedProducts : List String
  productInputs : List (String × ProductInput)
  years : Nat
  method : PricingMethod
  rates : List ℚ
  productRates : List (String × List ℚ)
  renewalUpliftRates : List (String × ℚ)
  applyWHT : Bool
  flatPricing : Bool
  rounding : Bool
deriving DecidableEq, Repr

/-- ProductYearlyData of the source. -/
structure ProductYearlyData where
  id : String
  gross : ℚ
  grossSAR : ℚ
  net : ℚ
deriving DecidableEq, Repr

/-- PricingResult of the source (the notes field, pure display text, is
not modelled). -/
structure PricingResult where
  year : Nat
  breakdown : List ProductYearlyData
  grossUSD : ℚ
  grossSAR : ℚ
  vatSAR : ℚ
  grandTotalSAR : ℚ
  netUSD : ℚ
  netSAR : ℚ
  floorAdjusted : Bool
deriving DecidableEq, Repr

/-- CalculationOutput of the source (final variant). -/
structure CalculationOutput where
  yearlyResults : List PricingResult
  totalGrossUSD : ℚ
  totalGrossSAR : ℚ
  totalVatSAR : ℚ
  totalGrandTotalSAR : ℚ
  totalNetUSD : ℚ
  totalNetSAR : ℚ
  productNetTotals : List (String × ℚ)
  acvUSD : ℚ
  netACV : ℚ
  renewalBaseACV : ℚ
  netRenewalBaseACV : ℚ
  upsellACV : ℚ
  netUpsellACV : ℚ
  currencyToDisplay : String
deriving DecidableEq, Repr

/-! ## Constants (constants.ts) -/

def WHT_FACTOR : ℚ := 0.95

def EXCHANGE_RATE_SAR : ℚ := 3.76

def STANDARD_FLOOR_RAW : ℚ := 6500

def COMBO_FLOOR_LD_RAW : ℚ := 4000

/-- ProductDefinition of the source; defaultBasePrice is absent for both
catalog products, and the engine reads it only through
definition?.defaultBasePrice || 0, so the absent value is encoded as 0. -/
structure ProductDefinition where
  id : String
  hasVariants : Bool
  defaultBasePrice : ℚ
deriving DecidableEq, Repr

def AVAILABLE_PRODUCTS : List ProductDefinition :=
  [⟨"utd", true, 0⟩, ⟨"ld", true, 0⟩]

def UTD_VARIANTS : List (String × ℚ) :=
  [("ANYWHERE", 259), ("UTDADV", 270), ("UTDEE", 265)]

def LD_VARIANTS : List (String × ℚ) :=
  [("BASE PKG", 80), ("BASE PKG+FLINK", 92), ("BASE PKG+FLINK+IPE", 108),
   ("EE-Combo", 66.25), ("EE-Combo+FLINK", 78.25), ("EE-Combo+FLINK+IPE", 94.25)]

def LXD_ADDONS_FLINK : ℚ := 12

def LXD_ADDONS_IPE : ℚ := 16

def LXD_ADDONS_FLINK_IPE : ℚ := 28

/-! ## String helpers

JS String.prototype.includes, modelled as a contiguous-substring test on
character lists. -/

/-- pat is a prefix of hay (character lists). -/
def chHasPre : List Char → List Char → Bool
  | [], _ => true
  | _ :: _, [] => false
  | a :: as, b :: bs => a == b && chHasPre as bs

/-- pat occurs contiguously somewhere in hay. -/
def chHasSub (pat : List Char) : List Char → Bool
  | [] => pat.isEmpty
  | h :: t => chHasPre pat (h :: t) || chHasSub pat t

/-- s.includes(pat) of JS. -/
def strIncludes (s pat : String) : Bool :=
  chHasSub pat.toList s.toList

/-! ## getNetFactor (source lines 22-50) -/

def getNetFactor (dealType : DealType) (channel : ChannelType) (yearIndex : Nat) : ℚ :=
  if channel = ChannelType.DIRECT then 1
  else if channel = ChannelType.FULFILMENT then
    if dealType = DealType.RENEWAL then 0.95
    else if yearIndex = 0 then 0.925 else 0.95
  else if channel = ChannelType.PARTNER_SOURCED then
    if dealType = DealType.RENEWAL then 0.90
    else if yearIndex = 0 then 0.85 else 0.90
  else 1

/-! ## convertToSAR (source lines 52-55) -/

def convertToSAR (usdAmount : ℚ) : ℚ :=
  (⌈usdAmount * EXCHANGE_RATE_SAR / 10⌉ : ℚ) * 10

/-! ## calculatePricing, step 1: year-1 base resolver -/

def inputOf (cfg : DealConfiguration) (prodId : String) : ProductInput :=
  (List.lookup prodId cfg.productInputs).getD defaultProductInput

def upliftOf (cfg : DealConfiguration) (prodId : String) : ℚ :=
  (List.lookup prodId cfg.renewalUpliftRates).getD 0

def findProduct (prodId : String) : Option ProductDefinition :=
  AVAILABLE_PRODUCTS.find? (fun p => p.id == prodId)

/-- inputs.existingVariant || inputs.variant. -/
def existingOf (inp : ProductInput) : String :=
  if inp.existingVariant = "" then inp.variant else inp.existingVariant

/-- listRate resolution (source lines 78-85). -/
def listRateOf (prodId : String) (inp : ProductInput) : ℚ :=
  if prodId = "utd" then (List.lookup inp.variant UTD_VARIANTS).getD 0
  else if prodId = "ld" then (List.lookup inp.variant LD_VARIANTS).getD 0
  else match findProduct prodId with
    | some d => d.defaultBasePrice
    | none => 0

/-- baseGross (source lines 87-90). -/
def baseGrossOf (prodId : String) (inp : ProductInput) : ℚ :=
  let hasVar := match findProduct prodId with
    | some d => d.hasVariants
    | none => false
  if hasVar || prodId == "utd" || prodId == "ld" then inp.count * listRateOf prodId inp
  else match findProduct prodId with
    | some d => d.defaultBasePrice
    | none => 0

/-- baseNet: discounted gross, WHT-grossed-up when enabled
(source lines 92-98). -/
def baseNetOf (cfg : DealConfiguration) (prodId : String) : ℚ :=
  let inp := inputOf cfg prodId
  let net := baseGrossOf prodId inp * (1 - inp.baseDiscount / 100)
  if cfg.applyWHT then net / WHT_FACTOR else net

/-- The path-based UTD renewal price before the stats-change check
(source lines 118-152). -/
def utdPathPrice (existing target : String) (expiring standardBase upliftVal : ℚ) : ℚ :=
  if existing = target then
    if existing = "UTDEE" then expiring * 1.08 else standardBase
  else if existing = "ANYWHERE" ∧ target = "UTDADV" then
    expiring * (1 + (upliftVal + 8) / 100)
  else if existing = "ANYWHERE" ∧ target = "UTDEE" then expiring * 1.11
  else if existing = "UTDADV" ∧ target = "UTDEE" then expiring * 1.08
  else standardBase

/-- UTD renewal: (actualY1Price, renewalBase) (source lines 118-175). -/
def utdRenewalPair (inp : ProductInput) (upliftVal baseNet : ℚ) : ℚ × ℚ :=
  let expiring := inp.expiringAmount
  let existing := existingOf inp
  let target := inp.variant
  let standardBase := expiring * (1 + upliftVal / 100)
  let path := utdPathPrice existing target expiring standardBase upliftVal
  if inp.changeInStats = true ∧ path < baseNet then (baseNet, standardBase)
  else if existing = target then (path, path)
  else (path, standardBase)

/-- LXD renewal: (actualY1Price, renewalBase) (source lines 177-211). -/
def ldRenewalPair (applyW : Bool) (inp : ProductInput) (upliftVal : ℚ) : ℚ × ℚ :=
  let expiring := inp.expiringAmount
  let existing := existingOf inp
  let target := inp.variant
  let standardBase := expiring * (1 + upliftVal / 100)
  if existing = target then (standardBase, standardBase)
  else
    let isBase := strIncludes existing "BASE PKG"
    let isFlink := strIncludes existing "FLINK" && !(strIncludes existing "IPE")
    let targetFlink := strIncludes target "FLINK" && !(strIncludes target "IPE")
    let targetFlinkIPE := strIncludes target "FLINK" && strIncludes target "IPE"
    let addOnPerBed : ℚ :=
      if isBase && targetFlink then LXD_ADDONS_FLINK
      else if isBase && targetFlinkIPE then LXD_ADDONS_FLINK_IPE
      else if isFlink && targetFlinkIPE then LXD_ADDONS_IPE
      else 0
    let addOnTotal : ℚ :=
      if 0 < addOnPerBed then
        if applyW then inp.count * addOnPerBed / WHT_FACTOR else inp.count * addOnPerBed
      else 0
    (standardBase + addOnTotal, standardBase)

/-- Year-1 resolution for one product:
(finalYear1Net, renewal-base contribution to the ACV accumulator).
For a NEW_LOGO deal the price is baseNet and nothing is accumulated; for
a RENEWAL, a product other than utd / ld keeps actualY1Price = expiring
and accumulates the initial renewalBase = 0 (source lines 100-218). -/
def year1Pair (cfg : DealConfiguration) (prodId : String) : ℚ × ℚ :=
  let inp := inputOf cfg prodId
  let baseNet := baseNetOf cfg prodId
  if cfg.dealType = DealType.RENEWAL then
    if prodId = "utd" then utdRenewalPair inp (upliftOf cfg prodId) baseNet
    else if prodId = "ld" then ldRenewalPair cfg.applyWHT inp (upliftOf cfg prodId)
    else (inp.expiringAmount, 0)
  else (baseNet, 0)

/-- year1ProductNets[prodId] before the floor step. -/
def rawNet (cfg : DealConfiguration) (prodId : String) : ℚ :=
  (year1Pair cfg prodId).1

/-- The renewal-base contribution of one product. -/
def renewalBaseOf (cfg : DealConfiguration) (prodId : String) : ℚ :=
  (year1Pair cfg prodId).2

/-- totalRenewalBaseForACV after the step-1 loop. -/
def totalRenewalBase (cfg : DealConfiguration) : ℚ :=
  (cfg.selectedProducts.map (renewalBaseOf cfg)).sum

/-! ## calculatePricing, step 2: floor enforcement -/

def activeStandardFloor (cfg : DealConfiguration) : ℚ :=
  if cfg.applyWHT then STANDARD_FLOOR_RAW / WHT_FACTOR else STANDARD_FLOOR_RAW

def activeComboFloor (cfg : DealConfiguration) : ℚ :=
  if cfg.applyWHT then COMBO_FLOOR_LD_RAW / WHT_FACTOR else COMBO_FLOOR_LD_RAW

/-- year1ProductNets[prodId] after the floor step (source lines 220-245). -/
def flooredNet (cfg : DealConfiguration) (prodId : String) : ℚ :=
  let raw := rawNet cfg prodId
  let hasUTD := "utd" ∈ cfg.selectedProducts
  let hasLD := "ld" ∈ cfg.selectedProducts
  if hasUTD ∧ hasLD then
    if prodId = "ld" ∧ raw < activeComboFloor cfg then activeComboFloor cfg else raw
  else if hasUTD then
    if prodId = "utd" ∧ raw < activeStandardFloor cfg then activeStandardFloor cfg else raw
  else if hasLD then
    if prodId = "ld" ∧ raw < activeStandardFloor cfg then activeStandardFloor cfg else raw
  else raw

/-- The floorTriggered flag of the floor step. -/
def floorTriggered (cfg : DealConfiguration) : Bool :=
  let hasUTD := "utd" ∈ cfg.selectedProducts
  let hasLD := "ld" ∈ cfg.selectedProducts
  if hasUTD ∧ hasLD then decide (rawNet cfg "ld" < activeComboFloor cfg)
  else if hasUTD then decide (rawNet cfg "utd" < activeStandardFloor cfg)
  else if hasLD then decide (rawNet cfg "ld" < activeStandardFloor cfg)
  else false

/-! ## calculatePricing, step 3: multi-year projection -/

/-- productRates[prodId] || rates (a present empty array is truthy and is
kept, exactly as in JS). -/
def effRates (cfg : DealConfiguration) (prodId : String) : List ℚ :=
  (List.lookup prodId cfg.productRates).getD cfg.rates

/-- specificRates[i] || 0. -/
def effRate (cfg : DealConfiguration) (prodId : String) (i : Nat) : ℚ :=
  (effRates cfg prodId).getD i 0

/-- MYFPI forward recursion: value at index i. -/
def myfpiVal (r : Nat → ℚ) (y1 : ℚ) : Nat → ℚ
  | 0 => y1
  | i + 1 => myfpiVal r y1 i * (1 + r (i + 1) / 100)

/-- MYPP reverse recursion: value at distance d below the last index
(index years - 1 - d). -/
def myppVal (r : Nat → ℚ) (y1 : ℚ) (dealYears : Nat) : Nat → ℚ
  | 0 => y1
  | d + 1 => myppVal r y1 dealYears d / (1 + r (dealYears - 1 - d) / 100)

/-- The projected schedule of one product (source lines 251-274). -/
def rawSchedule (cfg : DealConfiguration) (prodId : String) : List ℚ :=
  let y1 := flooredNet cfg prodId
  let r := effRate cfg prodId
  if cfg.method = PricingMethod.MYFPI then
    (List.range cfg.years).map (myfpiVal r y1)
  else
    (List.range cfg.years).map (fun i => myppVal r y1 cfg.years (cfg.years - 1 - i))

/-- Step 3.5, flat pricing (source lines 276-287). -/
def flatten (cfg : DealConfiguration) (schedule : List ℚ) : List ℚ :=
  if cfg.flatPricing = true ∧ 1 < cfg.years then
    List.replicate cfg.years (schedule.sum / (cfg.years : ℚ))
  else schedule

/-- Step 3.6, rounding of one year value (source lines 289-307). -/
def roundYearVal (channel : ChannelType) (v : ℚ) : ℚ :=
  if channel = ChannelType.DIRECT then (⌈v / 100⌉ : ℚ) * 100
  else (⌈v * EXCHANGE_RATE_SAR / 1000⌉ : ℚ) * 1000 / EXCHANGE_RATE_SAR

def roundSchedule (cfg : DealConfiguration) (schedule : List ℚ) : List ℚ :=
  if cfg.rounding = true then schedule.map (roundYearVal cfg.channel) else schedule

/-- productSchedules[prodId] after steps 3, 3.5 and 3.6. -/
def schedFinal (cfg : DealConfiguration) (prodId : String) : List ℚ :=
  roundSchedule cfg (flatten cfg (rawSchedule cfg prodId))

/-! ## calculatePricing, steps 4 and 5: aggregation and splits -/

/-- One entry of yearlyResults (source lines 324-364), built from the
(prodId, schedule) pairs in selection order. -/
def yearEntry (dealType : DealType) (channel : ChannelType) (floorTrig : Bool)
    (schedules : List (String × List ℚ)) (i : Nat) : PricingResult :=
  let f := getNetFactor dealType channel i
  let yearSum := (schedules.map (fun e => e.2.getD i 0)).sum
  let yearGrossSAR := convertToSAR yearSum
  let yearVatSAR := yearGrossSAR * 0.15
  { year := i + 1
    breakdown := schedules.map (fun e =>
      { id := e.1, gross := e.2.getD i 0, grossSAR := convertToSAR (e.2.getD i 0),
        net := e.2.getD i 0 * f })
    grossUSD := yearSum
    grossSAR := yearGrossSAR
    vatSAR := yearVatSAR
    grandTotalSAR := yearGrossSAR + yearVatSAR
    netUSD := yearSum * f
    netSAR := yearSum * f * EXCHANGE_RATE_SAR
    floorAdjusted := (i == 0) && floorTrig }

/-- Steps 4 and 5 (source lines 309-409): totals over the year loop and
the ACV splits.  The productNetTotals record accumulates, per distinct
product key, the net value of every occurrence of that key in
selectedProducts across all years. -/
def aggregate (dealType : DealType) (channel : ChannelType) (dealYears : Nat)
    (schedules : List (String × List ℚ)) (selected : List String)
    (renewalBaseTotal : ℚ) (floorTrig : Bool) : CalculationOutput :=
  let results := (List.range dealYears).map (yearEntry dealType channel floorTrig schedules)
  let totalGrossUSD := (results.map PricingResult.grossUSD).sum
  let totalGrossSAR := (results.map PricingResult.grossSAR).sum
  let totalVatSAR := (results.map PricingResult.vatSAR).sum
  let totalGrandTotalSAR := (results.map PricingResult.grandTotalSAR).sum
  let totalNetUSD := (results.map PricingResult.netUSD).sum
  let totalNetSAR := (results.map PricingResult.netSAR).sum
  let productNetTotals := selected.dedup.map (fun p =>
    (p, (selected.count p : ℚ) *
      ((List.range dealYears).map (fun i =>
        ((List.lookup p schedules).getD []).getD i 0 * getNetFactor dealType channel i)).sum))
  let acvUSD := totalGrossUSD / (dealYears : ℚ)
  let netACV := totalNetUSD / (dealYears : ℚ)
  let upsellACV := if dealType = DealType.RENEWAL then max 0 (acvUSD - renewalBaseTotal) else 0
  let renewalNetFactor := getNetFactor dealType channel 0
  { yearlyResults := results
    totalGrossUSD := totalGrossUSD
    totalGrossSAR := totalGrossSAR
    totalVatSAR := totalVatSAR
    totalGrandTotalSAR := totalGrandTotalSAR
    totalNetUSD := totalNetUSD
    totalNetSAR := totalNetSAR
    productNetTotals := productNetTotals
    acvUSD := acvUSD
    netACV := netACV
    renewalBaseACV := renewalBaseTotal
    netRenewalBaseACV := renewalBaseTotal * renewalNetFactor
    upsellACV := upsellACV
    netUpsellACV := upsellACV * renewalNetFactor
    currencyToDisplay := if channel = ChannelType.DIRECT then "USD" else "SAR" }

/-- calculatePricing (source lines 57-410). -/
def calculatePricing (cfg : DealConfiguration) : CalculationOutput :=
  aggregate cfg.dealType cfg.channel cfg.years
    (cfg.selectedProducts.map (fun p => (p, schedFinal cfg p)))
    cfg.selectedProducts (totalRenewalBase cfg) (floorTriggered cfg)

/-- Fallback entry for positional access into yearlyResults. -/
def dummyResult : PricingResult :=
  { year := 0, breakdown := [], grossUSD := 0, grossSAR := 0, vatSAR := 0,
    grandTotalSAR := 0, netUSD := 0, netSAR := 0, floorAdjusted := false }

/-! ## Helper lemmas -/

lemma getD_range_map {α : Type} (f : Nat → α) (n i : Nat) (h : i < n) (d : α) :
    ((List.range n).map f).getD i d = f i := by
  rw [List.getD_eq_getElem?_getD, List.getElem?_map, List.getElem?_range h]
  rfl

lemma yearlyResults_eq (cfg : DealConfiguration) :
    (calculatePricing cfg).yearlyResults
      = (List.range cfg.years).map
          (yearEntry cfg.dealType cfg.channel (floorTriggered cfg)
            (cfg.selectedProducts.map (fun p => (p, schedFinal cfg p)))) := rfl

lemma mem_yearlyResults {cfg : DealConfiguration} {r : PricingResult}
    (hr : r ∈ (calculatePricing cfg).yearlyResults) :
    ∃ i, i < cfg.years ∧
      r = yearEntry cfg.dealType cfg.channel (floorTriggered cfg)
            (cfg.selectedProducts.map (fun p => (p, schedFinal cfg p))) i := by
  rw [yearlyResults_eq] at hr
  obtain ⟨i, hi, hmap⟩ := List.mem_map.mp hr
  exact ⟨i, List.mem_range.mp hi, hmap.symm⟩

lemma yearEntry_vatSAR (dt : DealType) (ch : ChannelType) (ft : Bool)
    (schedules : List (String × List ℚ)) (i : Nat) :
    (yearEntry dt ch ft schedules i).vatSAR
      = (yearEntry dt ch ft schedules i).grossSAR * 0.15 := rfl

lemma yearEntry_grand (dt : DealType) (ch : ChannelType) (ft : Bool)
    (schedules : List (String × List ℚ)) (i : Nat) :
    (yearEntry dt ch ft schedules i).grandTotalSAR
      = (yearEntry dt ch ft schedules i).grossSAR + (yearEntry dt ch ft schedules i).vatSAR := rfl

lemma yearEntry_grossSAR (dt : DealType) (ch : ChannelType) (ft : Bool)
    (schedules : List (String × List ℚ)) (i : Nat) :
    (yearEntry dt ch ft schedules i).grossSAR
      = convertToSAR (yearEntry dt ch ft schedules i).grossUSD := rfl

lemma yearEntry_netUSD (dt : DealType) (ch : ChannelType) (ft : Bool)
    (schedules : List (String × List ℚ)) (i : Nat) :
    (yearEntry dt ch ft schedules i).netUSD
      = (yearEntry dt ch ft schedules i).grossUSD * getNetFactor dt ch i := rfl

lemma sumMapAdd {α : Type} (l : List α) (f g : α → ℚ) :
    (l.map (fun x => f x + g x)).sum = (l.map f).sum + (l.map g).sum := by
  induction l with
  | nil => simp
  | cons a t ih => simp [ih]; ring

lemma sumRangeSwap {α : Type} (n : Nat) (l : List α) (f : α → Nat → ℚ) :
    ((List.range n).map (fun i => (l.map (fun a => f a i)).sum)).sum
      = (l.map (fun a => ((List.range n).map (f a)).sum)).sum := by
  induction l with
  | nil => simp
  | cons a t ih =>
    simp only [List.map_cons, List.sum_cons]
    rw [sumMapAdd (List.range n) (fun i => f a i) (fun i => (t.map (fun x => f x i)).sum), ih]

/-! ## Claim theorems -/

/-- C5: the net (recognized) revenue factor equals 1.0 for DIRECT always;
for FULFILMENT 0.95 in all years of a renewal, and 0.925 in year 0 then
0.95 later for a new-logo deal; for PARTNER_SOURCED 0.90 in all years of
a renewal, and 0.85 in year 0 then 0.90 later for a new-logo deal; and
each year's netUSD equals that year's grossUSD times this factor. -/
theorem c5_net_factor_and_netUSD (cfg : DealConfiguration) (i : Nat) (hi : i < cfg.years) :
    (∀ dt : DealType, ∀ y : Nat, getNetFactor dt ChannelType.DIRECT y = 1)
    ∧ (∀ y : Nat, getNetFactor DealType.RENEWAL ChannelType.FULFILMENT y = 0.95)
    ∧ getNetFactor DealType.NEW_LOGO ChannelType.FULFILMENT 0 = 0.925
    ∧ (∀ y : Nat, 0 < y → getNetFactor DealType.NEW_LOGO ChannelType.FULFILMENT y = 0.95)
    ∧ (∀ y : Nat, getNetFactor DealType.RENEWAL ChannelType.PARTNER_SOURCED y = 0.90)
    ∧ getNetFactor DealType.NEW_LOGO ChannelType.PARTNER_SOURCED 0 = 0.85
    ∧ (∀ y : Nat, 0 < y → getNetFactor DealType.NEW_LOGO ChannelType.PARTNER_SOURCED y = 0.90)
    ∧ ((calculatePricing cfg).yearlyResults.getD i dummyResult).netUSD
        = ((calculatePricing cfg).yearlyResults.getD i dummyResult).grossUSD
            * getNetFactor cfg.dealType cfg.channel i := by
  refine ⟨?_, ?_, rfl, ?_, ?_, rfl, ?_, ?_⟩
  · intro dt y; cases dt <;> rfl
  · intro y; rfl
  · intro y hy; simp [getNetFactor, hy.ne']
  · intro y; rfl
  · intro y hy; simp [getNetFactor, hy.ne']
  · rw [yearlyResults_eq, getD_range_map _ _ i hi, yearEntry_netUSD]

/-- C5 witness: a concrete 2-year FULFILMENT new-logo configuration. -/
def cfgC5W : DealConfiguration :=
  { dealType := DealType.NEW_LOGO, channel := ChannelType.FULFILMENT,
    selectedProducts := ["utd"],
    productInputs := [("utd", { count := 100, variant := "ANYWHERE", baseDiscount := 0,
                                expiringAmount := 0, existingVariant := "",
                                changeInStats := false })],
    years := 2, method := PricingMethod.MYFPI, rates := [0, 8], productRates := [],
    renewalUpliftRates := [], applyWHT := false, flatPricing := false, rounding := false }

theorem c5_net_factor_and_netUSD_witness :
    getNetFactor DealType.NEW_LOGO ChannelType.FULFILMENT 1 = 0.95
    ∧ ((calculatePricing cfgC5W).yearlyResults.getD 1 dummyResult).netUSD
        = ((calculatePricing cfgC5W).yearlyResults.getD 1 dummyResult).grossUSD
            * getNetFactor cfgC5W.dealType cfgC5W.channel 1 := by
  have h := c5_net_factor_and_netUSD cfgC5W 1 (by norm_num [cfgC5W])
  exact ⟨h.2.2.2.1 1 Nat.one_pos, h.2.2.2.2.2.2.2⟩

/-- C6: every year entry satisfies grossSAR = ceil(grossUSD * 3.76 / 10) * 10,
vatSAR = grossSAR * 0.15 and grandTotalSAR = grossSAR + vatSAR; in
particular a gross of 1000 USD converts to 3760 SAR, 564 SAR VAT and a
4324 SAR grand total. -/
theorem c6_sar_vat_grand (cfg : DealConfiguration) (r : PricingResult)
    (hr : r ∈ (calculatePricing cfg).yearlyResults) :
    r.grossSAR = (⌈r.grossUSD * EXCHANGE_RATE_SAR / 10⌉ : ℚ) * 10
    ∧ r.vatSAR = r.grossSAR * 0.15
    ∧ r.grandTotalSAR = r.grossSAR + r.vatSAR
    ∧ convertToSAR 1000 = 3760
    ∧ convertToSAR 1000 * 0.15 = 564
    ∧ convertToSAR 1000 + convertToSAR 1000 * 0.15 = 4324 := by
  have hconv : convertToSAR 1000 = 3760 := by
    rw [convertToSAR, EXCHANGE_RATE_SAR, show (1000 : ℚ) * 3.76 / 10 = ((376 : ℤ) : ℚ) by norm_num,
      Int.ceil_intCast]
    norm_num
  obtain ⟨i, hi, rfl⟩ := mem_yearlyResults hr
  refine ⟨rfl, rfl, rfl, hconv, ?_, ?_⟩ <;> rw [hconv] <;> norm_num

/-- A one-year DIRECT configuration for the C6 witness. -/
def cfgC6W : DealConfiguration :=
  { dealType := DealType.NEW_LOGO, channel := ChannelType.DIRECT,
    selectedProducts := ["utd"],
    productInputs := [("utd", { count := 20, variant := "UTDADV", baseDiscount := 0,
                                expiringAmount := 0, existingVariant := "",
                                changeInStats := false })],
    years := 1, method := PricingMethod.MYFPI, rates := [0], productRates := [],
    renewalUpliftRates := [], applyWHT := false, flatPricing := false, rounding := false }

theorem c6_sar_vat_grand_witness :
    ((calculatePricing cfgC6W).yearlyResults.getD 0 dummyResult).grossSAR
      = (⌈((calculatePricing cfgC6W).yearlyResults.getD 0 dummyResult).grossUSD
          * EXCHANGE_RATE_SAR / 10⌉ : ℚ) * 10
    ∧ convertToSAR 1000 = 3760 := by
  have hmem : (calculatePricing cfgC6W).yearlyResults.getD 0 dummyResult
      ∈ (calculatePricing cfgC6W).yearlyResults := by
    rw [yearlyResults_eq, show cfgC6W.years = 1 from rfl,
      show (List.range 1) = [0] from rfl, List.map_cons, List.map_nil, List.getD_cons_zero]
    exact List.mem_singleton.mpr rfl
  have h := c6_sar_vat_grand cfgC6W _ hmem
  exact ⟨h.1, h.2.2.2.1⟩

/-- C10: a NEW_LOGO deal yields all-zero renewal-split metrics. -/
theorem c10_new_logo_zero_splits (cfg : DealConfiguration)
    (h : cfg.dealType = DealType.NEW_LOGO) :
    (calculatePricing cfg).renewalBaseACV = 0
    ∧ (calculatePricing cfg).upsellACV = 0
    ∧ (calculatePricing cfg).netRenewalBaseACV = 0
    ∧ (calculatePricing cfg).netUpsellACV = 0 := by
  have htrb : totalRenewalBase cfg = 0 := by
    unfold totalRenewalBase
    apply List.sum_eq_zero
    intro x hx
    obtain ⟨p, hp, rfl⟩ := List.mem_map.mp hx
    unfold renewalBaseOf year1Pair
    simp [h]
  simp only [calculatePricing, aggregate, htrb, h]
  norm_num [show (DealType.NEW_LOGO = DealType.RENEWAL) ↔ False by simp]

/-- A DIRECT new-logo configuration: one product, 100 units at list price
259, no WHT, one year. -/
def cfgC1X : DealConfiguration :=
  { dealType := DealType.NEW_LOGO, channel := ChannelType.DIRECT,
    selectedProducts := ["utd"],
    productInputs := [("utd", { count := 100, variant := "ANYWHERE", baseDiscount := 0,
                                expiringAmount := 0, existingVariant := "",
                                changeInStats := false })],
    years := 1, method := PricingMethod.MYFPI, rates := [0], productRates := [],
    renewalUpliftRates := [], applyWHT := false, flatPricing := false, rounding := false }

lemma cfgC1X_sched : schedFinal cfgC1X "utd" = [25900] := by
  simp [schedFinal, roundSchedule, flatten, rawSchedule, cfgC1X, List.range_succ, myfpiVal,
    flooredNet, rawNet, year1Pair, baseNetOf, baseGrossOf, listRateOf, inputOf, findProduct,
    AVAILABLE_PRODUCTS, UTD_VARIANTS, List.lookup, activeStandardFloor, STANDARD_FLOOR_RAW]
  norm_num

/-- C1 counterexample: a DIRECT deal whose computed year-1 entry carries a
nonzero vatSAR (= grossSAR * 0.15 = 97390 * 0.15), and whose totalVatSAR
is likewise nonzero — calculatePricing applies VAT on every channel. -/
theorem c1_direct_vat_counterexample :
    cfgC1X.channel = ChannelType.DIRECT
    ∧ ((calculatePricing cfgC1X).yearlyResults.getD 0 dummyResult).vatSAR = 29217 / 2
    ∧ (calculatePricing cfgC1X).totalVatSAR = 29217 / 2
    ∧ ((29217 : ℚ) / 2 ≠ 0) := by
  have hconv : convertToSAR 25900 = 97390 := by
    rw [convertToSAR, EXCHANGE_RATE_SAR,
      show (25900 : ℚ) * 3.76 / 10 = 48692 / 5 by norm_num,
      show ⌈(48692 : ℚ) / 5⌉ = 9739 from Int.ceil_eq_iff.mpr (by norm_num)]
    norm_num
  have hvat : (yearEntry cfgC1X.dealType cfgC1X.channel (floorTriggered cfgC1X)
      [("utd", [25900])] 0).vatSAR = 29217 / 2 := by
    rw [yearEntry_vatSAR, yearEntry_grossSAR,
      show (yearEntry cfgC1X.dealType cfgC1X.channel (floorTriggered cfgC1X)
        [("utd", [25900])] 0).grossUSD = 25900 by simp [yearEntry], hconv]
    norm_num
  refine ⟨rfl, ?_, ?_, by norm_num⟩
  · rw [yearlyResults_eq, show cfgC1X.years = 1 from rfl,
      show cfgC1X.selectedProducts = ["utd"] from rfl,
      List.map_cons, List.map_nil, cfgC1X_sched,
      show (List.range 1) = [0] from rfl, List.map_cons, List.map_nil, List.getD_cons_zero]
    exact hvat
  · show ((((List.range cfgC1X.years).map _).map PricingResult.vatSAR).sum : ℚ) = 29217 / 2
    rw [show cfgC1X.years = 1 from rfl, show cfgC1X.selectedProducts = ["utd"] from rfl,
      List.map_cons, List.map_nil, cfgC1X_sched,
      show (List.range 1) = [0] from rfl, List.map_cons, List.map_nil,
      List.map_cons, List.map_nil, List.sum_cons, List.sum_nil, hvat]
    norm_num

/-- C1 amended: for a DIRECT configuration (as for every other channel)
each year entry of the computed output satisfies vatSAR = grossSAR * 0.15
and grandTotalSAR = grossSAR + vatSAR — VAT is not zeroed for DIRECT —
and totalVatSAR is the sum of the per-year vatSAR values. -/
theorem c1_direct_vat_amended (cfg : DealConfiguration)
    (hch : cfg.channel = ChannelType.DIRECT) :
    (∀ r ∈ (calculatePricing cfg).yearlyResults,
        r.vatSAR = r.grossSAR * 0.15 ∧ r.grandTotalSAR = r.grossSAR + r.vatSAR)
    ∧ (calculatePricing cfg).totalVatSAR
        = ((calculatePricing cfg).yearlyResults.map PricingResult.vatSAR).sum := by
  refine ⟨?_, rfl⟩
  intro r hr
  obtain ⟨i, hi, rfl⟩ := mem_yearlyResults hr
  exact ⟨rfl, rfl⟩

/-- C1 amended witness: the DIRECT configuration above, at its year-1
entry. -/
theorem c1_direct_vat_amended_witness :
    ((calculatePricing cfgC1X).yearlyResults.getD 0 dummyResult).vatSAR
      = ((calculatePricing cfgC1X).yearlyResults.getD 0 dummyResult).grossSAR * 0.15
    ∧ (calculatePricing cfgC1X).totalVatSAR
        = ((calculatePricing cfgC1X).yearlyResults.map PricingResult.vatSAR).sum := by
  have h := c1_direct_vat_amended cfgC1X rfl
  refine ⟨(h.1 _ ?_).1, h.2⟩
  rw [yearlyResults_eq, show cfgC1X.years = 1 from rfl,
    show (List.range 1) = [0] from rfl, List.map_cons, List.map_nil, List.getD_cons_zero]
  exact List.mem_singleton.mpr rfl

/-- C10 witness: the concrete new-logo FULFILMENT configuration. -/
theorem c10_new_logo_zero_splits_witness :
    (calculatePricing cfgC5W).renewalBaseACV = 0
    ∧ (calculatePricing cfgC5W).upsellACV = 0
    ∧ (calculatePricing cfgC5W).netRenewalBaseACV = 0
    ∧ (calculatePricing cfgC5W).netUpsellACV = 0 :=
  c10_new_logo_zero_splits cfgC5W rfl

lemma rawSchedule_length (cfg : DealConfiguration) (p : String) :
    (rawSchedule cfg p).length = cfg.years := by
  unfold rawSchedule
  split <;> simp

/-- C4: with flatPricing and rounding disabled, each product's schedule
follows the recurrence over its effective rate array: under MYFPI,
schedule[0] is the floored year-1 value and
schedule[i] = schedule[i-1] * (1 + rate[i]/100); under MYPP,
schedule[years-1] is the floored year-1 value and
schedule[i] = schedule[i+1] / (1 + rate[i+1]/100). -/
theorem c4_schedule_recurrence (cfg : DealConfiguration) (p : String)
    (hflat : cfg.flatPricing = false) (hround : cfg.rounding = false)
    (hy : 1 ≤ cfg.years) :
    (schedFinal cfg p).length = cfg.years
    ∧ (cfg.method = PricingMethod.MYFPI →
        (schedFinal cfg p).getD 0 0 = flooredNet cfg p
        ∧ ∀ i : Nat, 0 < i → i < cfg.years →
            (schedFinal cfg p).getD i 0
              = (schedFinal cfg p).getD (i - 1) 0 * (1 + effRate cfg p i / 100))
    ∧ (cfg.method = PricingMethod.MYPP →
        (schedFinal cfg p).getD (cfg.years - 1) 0 = flooredNet cfg p
        ∧ ∀ i : Nat, i + 1 < cfg.years →
            (schedFinal cfg p).getD i 0
              = (schedFinal cfg p).getD (i + 1) 0 / (1 + effRate cfg p (i + 1) / 100)) := by
  have hsf : schedFinal cfg p = rawSchedule cfg p := by
    unfold schedFinal roundSchedule flatten
    rw [hflat, hround]
    simp
  rw [hsf]
  refine ⟨rawSchedule_length cfg p, ?_, ?_⟩
  · intro hm
    unfold rawSchedule
    rw [if_pos hm]
    constructor
    · rw [getD_range_map _ _ 0 (by omega)]
      rfl
    · intro i h0 hiy
      rw [getD_range_map _ _ i hiy, getD_range_map _ _ (i - 1) (by omega)]
      obtain ⟨j, rfl⟩ : ∃ j : Nat, i = j + 1 := ⟨i - 1, by omega⟩
      simp only [Nat.add_sub_cancel]
      rfl
  · intro hm
    unfold rawSchedule
    rw [if_neg (by rw [hm]; simp)]
    constructor
    · rw [getD_range_map _ _ (cfg.years - 1) (by omega)]
      simp [Nat.sub_self, myppVal]
    · intro i hi
      rw [getD_range_map _ _ i (by omega), getD_range_map _ _ (i + 1) (by omega)]
      have h1 : cfg.years - 1 - i = (cfg.years - 1 - (i + 1)) + 1 := by omega
      rw [h1]
      show myppVal _ _ _ _ = _
      rw [myppVal]
      have h2 : cfg.years - 1 - (cfg.years - 1 - (i + 1)) = i + 1 := by omega
      rw [h2]

/-- A 3-year MYFPI configuration with flatPricing and rounding off. -/
def cfgC4W : DealConfiguration :=
  { dealType := DealType.NEW_LOGO, channel := ChannelType.DIRECT,
    selectedProducts := ["utd"],
    productInputs := [("utd", { count := 100, variant := "ANYWHERE", baseDiscount := 0,
                                expiringAmount := 0, existingVariant := "",
                                changeInStats := false })],
    years := 3, method := PricingMethod.MYFPI, rates := [0, 8, 8], productRates := [],
    renewalUpliftRates := [], applyWHT := true, flatPricing := false, rounding := false }

theorem c4_schedule_recurrence_witness :
    (schedFinal cfgC4W "utd").length = cfgC4W.years
    ∧ (schedFinal cfgC4W "utd").getD 0 0 = flooredNet cfgC4W "utd"
    ∧ (schedFinal cfgC4W "utd").getD 1 0
        = (schedFinal cfgC4W "utd").getD 0 0 * (1 + effRate cfgC4W "utd" 1 / 100) := by
  have h := c4_schedule_recurrence cfgC4W "utd" rfl rfl (by norm_num [cfgC4W])
  have h2 := h.2.1 rfl
  exact ⟨h.1, h2.1, h2.2 1 Nat.one_pos (by norm_num [cfgC4W])⟩

lemma aggregate_totalGrossUSD (dt : DealType) (ch : ChannelType) (n : Nat)
    (schedules : List (String × List ℚ)) (sel : List String) (trb : ℚ) (ft : Bool) :
    (aggregate dt ch n schedules sel trb ft).totalGrossUSD
      = (schedules.map (fun e => ((List.range n).map (fun i => e.2.getD i 0)).sum)).sum := by
  show (((List.range n).map (yearEntry dt ch ft schedules)).map PricingResult.grossUSD).sum = _
  rw [List.map_map]
  rw [show (PricingResult.grossUSD ∘ yearEntry dt ch ft schedules)
      = fun i => (schedules.map (fun e => e.2.getD i 0)).sum from rfl]
  exact sumRangeSwap n schedules (fun e i => e.2.getD i 0)

lemma sum_getD_range (l : List ℚ) :
    ((List.range l.length).map (fun i => l.getD i 0)).sum = l.sum := by
  induction l with
  | nil => simp
  | cons a t ih =>
    rw [List.length_cons, List.range_succ_eq_map, List.map_cons, List.map_map,
      show ((fun i => (a :: t).getD i 0) ∘ Nat.succ) = (fun i => t.getD i 0) from
        funext fun i => List.getD_cons_succ,
      List.getD_cons_zero, List.sum_cons, ih, List.sum_cons]

lemma sum_getD_flatten (cfg : DealConfiguration) (sched : List ℚ)
    (hlen : sched.length = cfg.years) :
    ((List.range cfg.years).map (fun i => (flatten cfg sched).getD i 0)).sum
      = ((List.range cfg.years).map (fun i => sched.getD i 0)).sum := by
  have hrhs : ((List.range cfg.years).map (fun i => sched.getD i 0)).sum = sched.sum := by
    rw [← hlen]; exact sum_getD_range sched
  unfold flatten
  split
  case isTrue hc =>
    have hmap : (List.range cfg.years).map
        (fun i => (List.replicate cfg.years (sched.sum / (cfg.years : ℚ))).getD i 0)
        = (List.range cfg.years).map (fun _ => sched.sum / (cfg.years : ℚ)) := by
      apply List.map_congr_left
      intro i hi
      rw [List.getD_eq_getElem?_getD, List.getElem?_replicate,
        if_pos (List.mem_range.mp hi)]
      rfl
    rw [hmap, hrhs, List.map_const', List.sum_replicate, List.length_range, nsmul_eq_mul]
    have hzero : (cfg.years : ℚ) ≠ 0 := by
      have : 1 < cfg.years := hc.2
      positivity
    field_simp
  case isFalse => rw [hrhs]

/-- C7: with rounding disabled, enabling flatPricing does not change
totalGrossUSD (exactly, over exact rational arithmetic): only the
per-year distribution changes. -/
theorem c7_flat_preserves_total (cfg : DealConfiguration)
    (hround : cfg.rounding = false) :
    (calculatePricing { cfg with flatPricing := true }).totalGrossUSD
      = (calculatePricing { cfg with flatPricing := false }).totalGrossUSD := by
  unfold calculatePricing
  rw [aggregate_totalGrossUSD, aggregate_totalGrossUSD, List.map_map, List.map_map]
  apply congrArg List.sum
  apply List.map_congr_left
  intro p hp
  show ((List.range cfg.years).map
      (fun i => (schedFinal { cfg with flatPricing := true } p).getD i 0)).sum
    = ((List.range cfg.years).map
      (fun i => (schedFinal { cfg with flatPricing := false } p).getD i 0)).sum
  have hr1 : schedFinal { cfg with flatPricing := true } p
      = flatten { cfg with flatPricing := true } (rawSchedule cfg p) := by
    unfold schedFinal roundSchedule
    rw [show ({ cfg with flatPricing := true } : DealConfiguration).rounding = false from hround]
    simp only [Bool.false_eq_true, if_false]
    rfl
  have hr2 : schedFinal { cfg with flatPricing := false } p = rawSchedule cfg p := by
    unfold schedFinal roundSchedule flatten
    rw [show ({ cfg with flatPricing := false } : DealConfiguration).rounding = false from hround]
    simp only [Bool.false_eq_true, if_false]
    rfl
  rw [hr1, hr2]
  exact sum_getD_flatten { cfg with flatPricing := true } (rawSchedule cfg p)
    (rawSchedule_length cfg p)

/-- A 3-year MYFPI configuration with rounding off, for the C7 witness. -/
def cfgC7W : DealConfiguration :=
  { dealType := DealType.NEW_LOGO, channel := ChannelType.DIRECT,
    selectedProducts := ["utd"],
    productInputs := [("utd", { count := 100, variant := "ANYWHERE", baseDiscount := 0,
                                expiringAmount := 0, existingVariant := "",
                                changeInStats := false })],
    years := 3, method := PricingMethod.MYFPI, rates := [0, 8, 8], productRates := [],
    renewalUpliftRates := [], applyWHT := true, flatPricing := false, rounding := false }

theorem c7_flat_preserves_total_witness :
    (calculatePricing { cfgC7W with flatPricing := true }).totalGrossUSD
      = (calculatePricing { cfgC7W with flatPricing := false }).totalGrossUSD :=
  c7_flat_preserves_total cfgC7W rfl

lemma myfpi_congr (r r2 : Nat → ℚ) (y : ℚ) (h : ∀ j : Nat, 1 ≤ j → r j = r2 j) :
    ∀ i : Nat, myfpiVal r y i = myfpiVal r2 y i := by
  intro i
  induction i with
  | zero => rfl
  | succ i ih => simp [myfpiVal, ih, h (i + 1) (by omega)]

lemma mypp_congr (r r2 : Nat → ℚ) (y : ℚ) (n : Nat) (h : ∀ j : Nat, 1 ≤ j → r j = r2 j) :
    ∀ d : Nat, d ≤ n - 1 → myppVal r y n d = myppVal r2 y n d := by
  intro d
  induction d with
  | zero => intro _; rfl
  | succ d ih =>
    intro hd
    have h1 : 1 ≤ n - 1 - d := by omega
    simp [myppVal, ih (by omega), h (n - 1 - d) h1]

lemma rawSchedule_congr (cfg : DealConfiguration) (r₁ r₂ : List ℚ)
    (pr₁ pr₂ : List (String × List ℚ)) (p : String)
    (h : ∀ i : Nat, 1 ≤ i →
        effRate { cfg with rates := r₁, productRates := pr₁ } p i
          = effRate { cfg with rates := r₂, productRates := pr₂ } p i) :
    rawSchedule { cfg with rates := r₁, productRates := pr₁ } p
      = rawSchedule { cfg with rates := r₂, productRates := pr₂ } p := by
  unfold rawSchedule
  have hfl : flooredNet { cfg with rates := r₁, productRates := pr₁ } p
      = flooredNet { cfg with rates := r₂, productRates := pr₂ } p := rfl
  rw [hfl]
  rw [show ({ cfg with rates := r₁, productRates := pr₁ } : DealConfiguration).method
      = cfg.method from rfl,
    show ({ cfg with rates := r₂, productRates := pr₂ } : DealConfiguration).method
      = cfg.method from rfl,
    show ({ cfg with rates := r₁, productRates := pr₁ } : DealConfiguration).years
      = cfg.years from rfl,
    show ({ cfg with rates := r₂, productRates := pr₂ } : DealConfiguration).years
      = cfg.years from rfl]
  split
  · apply List.map_congr_left
    intro i hi
    exact myfpi_congr _ _ _ h i
  · apply List.map_congr_left
    intro i hi
    exact mypp_congr _ _ _ cfg.years h (cfg.years - 1 - i) (by omega)

/-- C8 amended: the computed output never depends on the rate entry at
index 0 of any effective rate array, under either method: two
configurations whose effective rate arrays agree at every index i ≥ 1
for every selected product (and agree on every other field) produce
identical outputs.  Under MYPP the ignored entry is index 0, not index
years - 1: the reverse recursion reads entries 1 .. years - 1, including
the anchor index. -/
theorem c8_anchor_rate_amended (cfg : DealConfiguration) (r₁ r₂ : List ℚ)
    (pr₁ pr₂ : List (String × List ℚ))
    (h : ∀ p ∈ cfg.selectedProducts, ∀ i : Nat, 1 ≤ i →
        effRate { cfg with rates := r₁, productRates := pr₁ } p i
          = effRate { cfg with rates := r₂, productRates := pr₂ } p i) :
    calculatePricing { cfg with rates := r₁, productRates := pr₁ }
      = calculatePricing { cfg with rates := r₂, productRates := pr₂ } := by
  unfold calculatePricing
  have hs : ({ cfg with rates := r₁, productRates := pr₁ } : DealConfiguration).selectedProducts.map
        (fun p => (p, schedFinal { cfg with rates := r₁, productRates := pr₁ } p))
      = ({ cfg with rates := r₂, productRates := pr₂ } : DealConfiguration).selectedProducts.map
        (fun p => (p, schedFinal { cfg with rates := r₂, productRates := pr₂ } p)) := by
    apply List.map_congr_left
    intro p hp
    have hraw := rawSchedule_congr cfg r₁ r₂ pr₁ pr₂ p (h p hp)
    have hsched : schedFinal { cfg with rates := r₁, productRates := pr₁ } p
        = schedFinal { cfg with rates := r₂, productRates := pr₂ } p := by
      unfold schedFinal
      rw [hraw]
      rfl
    rw [hsched]
  rw [hs]
  rfl

/-- A 2-year MYPP configuration; its effective rate array is the global
one, [0, 0]. -/
def cfgC8X : DealConfiguration :=
  { dealType := DealType.NEW_LOGO, channel := ChannelType.DIRECT,
    selectedProducts := ["utd"],
    productInputs := [("utd", { count := 100, variant := "ANYWHERE", baseDiscount := 0,
                                expiringAmount := 0, existingVariant := "",
                                changeInStats := false })],
    years := 2, method := PricingMethod.MYPP, rates := [0, 0], productRates := [],
    renewalUpliftRates := [], applyWHT := false, flatPricing := false, rounding := false }

/-- The same configuration with only the rate entry at the anchor index
years - 1 changed (0 → 100). -/
def cfgC8Y : DealConfiguration :=
  { cfgC8X with rates := cfgC8X.rates.set (cfgC8X.years - 1) 100 }

lemma cfgC8X_sched : schedFinal cfgC8X "utd" = [25900, 25900] := by
  simp [schedFinal, roundSchedule, flatten, rawSchedule, cfgC8X, List.range_succ, myppVal,
    flooredNet, rawNet, year1Pair, baseNetOf, baseGrossOf, listRateOf, inputOf, findProduct,
    AVAILABLE_PRODUCTS, UTD_VARIANTS, List.lookup, activeStandardFloor, STANDARD_FLOOR_RAW,
    effRate, effRates]
  norm_num

lemma cfgC8Y_sched : schedFinal cfgC8Y "utd" = [12950, 25900] := by
  simp [schedFinal, roundSchedule, flatten, rawSchedule, cfgC8Y, cfgC8X, List.range_succ,
    myppVal, flooredNet, rawNet, year1Pair, baseNetOf, baseGrossOf, listRateOf, inputOf,
    findProduct, AVAILABLE_PRODUCTS, UTD_VARIANTS, List.lookup, activeStandardFloor,
    STANDARD_FLOOR_RAW, effRate, effRates]
  norm_num

/-- C8 counterexample: under MYPP, two configurations that differ only in
the effective rate array entry at the anchor index years - 1 (agreeing at
index 0) produce different outputs — the year-1 gross is 25900 in one and
12950 in the other — so the anchor entry is not ignored under MYPP. -/
theorem c8_anchor_rate_counterexample :
    cfgC8X.method = PricingMethod.MYPP
    ∧ cfgC8Y = { cfgC8X with rates := cfgC8X.rates.set (cfgC8X.years - 1) 100 }
    ∧ cfgC8X.rates = [0, 0] ∧ cfgC8Y.rates = [0, 100]
    ∧ effRate cfgC8X "utd" 0 = effRate cfgC8Y "utd" 0
    ∧ ((calculatePricing cfgC8X).yearlyResults.getD 0 dummyResult).grossUSD = 25900
    ∧ ((calculatePricing cfgC8Y).yearlyResults.getD 0 dummyResult).grossUSD = 12950
    ∧ calculatePricing cfgC8X ≠ calculatePricing cfgC8Y := by
  have hx : ((calculatePricing cfgC8X).yearlyResults.getD 0 dummyResult).grossUSD = 25900 := by
    rw [yearlyResults_eq, show cfgC8X.years = 2 from rfl,
      show cfgC8X.selectedProducts = ["utd"] from rfl,
      List.map_cons, List.map_nil, cfgC8X_sched,
      getD_range_map _ 2 0 (by omega)]
    simp [yearEntry]
  have hy : ((calculatePricing cfgC8Y).yearlyResults.getD 0 dummyResult).grossUSD = 12950 := by
    rw [yearlyResults_eq, show cfgC8Y.years = 2 from rfl,
      show cfgC8Y.selectedProducts = ["utd"] from rfl,
      List.map_cons, List.map_nil, cfgC8Y_sched,
      getD_range_map _ 2 0 (by omega)]
    simp [yearEntry]
  refine ⟨rfl, rfl, rfl, rfl, rfl, hx, hy, ?_⟩
  intro hcontra
  have := congrArg (fun o => (o.yearlyResults.getD 0 dummyResult).grossUSD) hcontra
  simp only at this
  rw [hx, hy] at this
  norm_num at this

/-- A 1-year MYFPI configuration for the C8 witness. -/
def cfgC8W : DealConfiguration :=
  { dealType := DealType.NEW_LOGO, channel := ChannelType.DIRECT,
    selectedProducts := ["utd"],
    productInputs := [("utd", { count := 10, variant := "ANYWHERE", baseDiscount := 0,
                                expiringAmount := 0, existingVariant := "",
                                changeInStats := false })],
    years := 1, method := PricingMethod.MYFPI, rates := [0], productRates := [],
    renewalUpliftRates := [], applyWHT := false, flatPricing := false, rounding := false }

theorem c8_anchor_rate_amended_witness :
    calculatePricing { cfgC8W with rates := [3], productRates := [] }
      = calculatePricing { cfgC8W with rates := [9], productRates := [] } := by
  apply c8_anchor_rate_amended
  intro p hp i hi
  match i, hi with
  | (n + 1), _ => rfl

/-- C2: for a RENEWAL configuration, the per-physician (utd) year-1 price
and renewal base follow the enumerated transition table on
(existingVariant, targetVariant): same variant below the top tier →
standardBase with renewal-base = price; same variant at UTDEE →
expiring * 1.08 with renewal-base = price; ANYWHERE → UTDADV →
expiring * (1 + (uplift + 8)/100); ANYWHERE → UTDEE → expiring * 1.11;
UTDADV → UTDEE → expiring * 1.08 (renewal-base = standardBase for all
three upgrades); any other transition falls back to standardBase; and
when the stats-changed flag is set and baseNet strictly exceeds the
path-based price, the price becomes baseNet and the renewal base becomes
standardBase. -/
theorem c2_utd_renewal_table (cfg : DealConfiguration)
    (hdt : cfg.dealType = DealType.RENEWAL) :
    ∀ inp e t E u sB bN,
      inp = inputOf cfg "utd" → e = existingOf inp → t = inp.variant →
      E = inp.expiringAmount → u = upliftOf cfg "utd" → sB = E * (1 + u / 100) →
      bN = baseNetOf cfg "utd" →
      ((inp.changeInStats = true ∧ utdPathPrice e t E sB u < bN) →
          rawNet cfg "utd" = bN ∧ renewalBaseOf cfg "utd" = sB)
      ∧ (¬ (inp.changeInStats = true ∧ utdPathPrice e t E sB u < bN) →
          ((e = t ∧ e ≠ "UTDEE") →
              rawNet cfg "utd" = sB ∧ renewalBaseOf cfg "utd" = rawNet cfg "utd")
          ∧ ((e = t ∧ e = "UTDEE") →
              rawNet cfg "utd" = E * 1.08 ∧ renewalBaseOf cfg "utd" = rawNet cfg "utd")
          ∧ ((e = "ANYWHERE" ∧ t = "UTDADV") →
              rawNet cfg "utd" = E * (1 + (u + 8) / 100) ∧ renewalBaseOf cfg "utd" = sB)
          ∧ ((e = "ANYWHERE" ∧ t = "UTDEE") →
              rawNet cfg "utd" = E * 1.11 ∧ renewalBaseOf cfg "utd" = sB)
          ∧ ((e = "UTDADV" ∧ t = "UTDEE") →
              rawNet cfg "utd" = E * 1.08 ∧ renewalBaseOf cfg "utd" = sB)
          ∧ ((e ≠ t ∧ ¬ (e = "ANYWHERE" ∧ t = "UTDADV") ∧ ¬ (e = "ANYWHERE" ∧ t = "UTDEE")
                ∧ ¬ (e = "UTDADV" ∧ t = "UTDEE")) →
              rawNet cfg "utd" = sB ∧ renewalBaseOf cfg "utd" = sB)) := by
  intro inp e t E u sB bN hinp he ht hE hu hsB hbN
  subst hinp he ht hE hu hsB hbN
  have hpair : year1Pair cfg "utd"
      = utdRenewalPair (inputOf cfg "utd") (upliftOf cfg "utd") (baseNetOf cfg "utd") := by
    simp [year1Pair, hdt]
  unfold rawNet renewalBaseOf
  rw [hpair]
  unfold utdRenewalPair
  set inp := inputOf cfg "utd" with hinp2
  set e := existingOf inp with he2
  set t := inp.variant with ht2
  set E := inp.expiringAmount with hE2
  set u := upliftOf cfg "utd" with hu2
  set bN := baseNetOf cfg "utd" with hbN2
  constructor
  · intro hov
    rw [if_pos hov]
    exact ⟨rfl, rfl⟩
  · intro hnov
    rw [if_neg hnov]
    refine ⟨?_, ?_, ?_, ?_, ?_, ?_⟩
    · rintro ⟨het, hne⟩
      rw [if_pos het]
      unfold utdPathPrice
      rw [if_pos het, if_neg hne]
      exact ⟨rfl, rfl⟩
    · rintro ⟨het, hee⟩
      rw [if_pos het]
      unfold utdPathPrice
      rw [if_pos het, if_pos hee]
      exact ⟨rfl, rfl⟩
    · rintro ⟨hea, htd⟩
      have hne : e ≠ t := by rw [hea, htd]; decide
      rw [if_neg hne]
      unfold utdPathPrice
      rw [if_neg hne, if_pos ⟨hea, htd⟩]
      exact ⟨rfl, rfl⟩
    · rintro ⟨hea, hte⟩
      have hne : e ≠ t := by rw [hea, hte]; decide
      have hn1 : ¬ (e = "ANYWHERE" ∧ t = "UTDADV") := by rw [hea, hte]; decide
      rw [if_neg hne]
      unfold utdPathPrice
      rw [if_neg hne, if_neg hn1, if_pos ⟨hea, hte⟩]
      exact ⟨rfl, rfl⟩
    · rintro ⟨hea, hte⟩
      have hne : e ≠ t := by rw [hea, hte]; decide
      have hn1 : ¬ (e = "ANYWHERE" ∧ t = "UTDADV") := by rw [hea, hte]; decide
      have hn2 : ¬ (e = "ANYWHERE" ∧ t = "UTDEE") := by rw [hea, hte]; decide
      rw [if_neg hne]
      unfold utdPathPrice
      rw [if_neg hne, if_neg hn1, if_neg hn2, if_pos ⟨hea, hte⟩]
      exact ⟨rfl, rfl⟩
    · rintro ⟨hne, hn1, hn2, hn3⟩
      rw [if_neg hne]
      unfold utdPathPrice
      rw [if_neg hne, if_neg hn1, if_neg hn2, if_neg hn3]
      exact ⟨rfl, rfl⟩

/-- A same-variant UTD renewal: expiring 10000, uplift 5%. -/
def cfgC2W : DealConfiguration :=
  { dealType := DealType.RENEWAL, channel := ChannelType.DIRECT,
    selectedProducts := ["utd"],
    productInputs := [("utd", { count := 0, variant := "ANYWHERE", baseDiscount := 0,
                                expiringAmount := 10000, existingVariant := "ANYWHERE",
                                changeInStats := false })],
    years := 1, method := PricingMethod.MYFPI, rates := [0], productRates := [],
    renewalUpliftRates := [("utd", 5)], applyWHT := false, flatPricing := false,
    rounding := false }

theorem c2_utd_renewal_table_witness :
    rawNet cfgC2W "utd" = 10500 ∧ renewalBaseOf cfgC2W "utd" = 10500 := by
  have h := (c2_utd_renewal_table cfgC2W rfl (inputOf cfgC2W "utd") "ANYWHERE" "ANYWHERE"
    10000 5 10500 (baseNetOf cfgC2W "utd") rfl rfl rfl rfl rfl (by norm_num) rfl).2
  have hno : ¬ ((inputOf cfgC2W "utd").changeInStats = true
      ∧ utdPathPrice "ANYWHERE" "ANYWHERE" 10000 10500 5 < baseNetOf cfgC2W "utd") := by
    rintro ⟨h1, -⟩
    simp [inputOf, cfgC2W, List.lookup] at h1
  obtain ⟨hrow, -⟩ := h hno
  obtain ⟨h1, h2⟩ := hrow ⟨rfl, by decide⟩
  exact ⟨h1, by rw [h2, h1]⟩

lemma baseGrossOf_default (p : String) : baseGrossOf p defaultProductInput = 0 := by
  unfold baseGrossOf
  rcases hfind : findProduct p with - | d
  · simp only [hfind]
    split
    · simp [defaultProductInput]
    · rfl
  · have hmem : d ∈ AVAILABLE_PRODUCTS := by
      have h2 : AVAILABLE_PRODUCTS.find? (fun q => q.id == p) = some d := by
        rw [← hfind]; rfl
      exact List.mem_of_find?_eq_some h2
    have hzero : d.defaultBasePrice = 0 := by
      rcases List.mem_cons.mp hmem with h | h
      · rw [h]
      · rcases List.mem_cons.mp h with h2 | h2
        · rw [h2]
        · simp at h2
    simp only [hfind]
    split
    · simp [defaultProductInput]
    · exact hzero

/-- C9: calculatePricing is total — for a configuration with years ≥ 1
and a non-empty product selection the output is fully populated: one year
entry per contract year, one breakdown row per selected product — and
missing inputs default to zero rather than failing: a product with no
productInputs record resolves to a year-1 value of 0, a rate index past
the end of the effective rate array reads as 0%, and an unknown utd
variant name resolves to list price 0. -/
theorem c9_total_with_defaults (cfg : DealConfiguration) (hy : 1 ≤ cfg.years)
    (hs : cfg.selectedProducts ≠ []) :
    (calculatePricing cfg).yearlyResults.length = cfg.years
    ∧ (∀ r ∈ (calculatePricing cfg).yearlyResults,
        r.breakdown.length = cfg.selectedProducts.length)
    ∧ (∀ p : String, List.lookup p cfg.productInputs = none → rawNet cfg p = 0)
    ∧ (∀ p : String, ∀ i : Nat, (effRates cfg p).length ≤ i → effRate cfg p i = 0)
    ∧ (∀ inp : ProductInput, List.lookup inp.variant UTD_VARIANTS = none →
        listRateOf "utd" inp = 0) := by
  refine ⟨?_, ?_, ?_, ?_, ?_⟩
  · rw [yearlyResults_eq, List.length_map, List.length_range]
  · intro r hr
    obtain ⟨i, hi, rfl⟩ := mem_yearlyResults hr
    show (List.map _ (cfg.selectedProducts.map (fun p => (p, schedFinal cfg p)))).length = _
    rw [List.length_map, List.length_map]
  · intro p hp
    have hd : inputOf cfg p = defaultProductInput := by
      unfold inputOf
      rw [hp]
      rfl
    have hbn : baseNetOf cfg p = 0 := by
      unfold baseNetOf
      rw [hd]
      simp [baseGrossOf_default]
    unfold rawNet year1Pair
    rw [hd, hbn]
    by_cases hren : cfg.dealType = DealType.RENEWAL
    · rw [if_pos hren]
      by_cases hputd : p = "utd"
      · rw [if_pos hputd]
        unfold utdRenewalPair utdPathPrice existingOf
        simp [defaultProductInput]
      · rw [if_neg hputd]
        by_cases hpld : p = "ld"
        · rw [if_pos hpld]
          unfold ldRenewalPair existingOf
          simp [defaultProductInput]
        · rw [if_neg hpld]
          rfl
    · rw [if_neg hren]
  · intro p i hlen
    unfold effRate
    exact List.getD_eq_default _ _ hlen
  · intro inp hnone
    unfold listRateOf
    rw [if_pos rfl, hnone]
    rfl

/-- A configuration selecting a product ("zz") that has no productInputs
record, for the C9 witness. -/
def cfgC9W : DealConfiguration :=
  { dealType := DealType.NEW_LOGO, channel := ChannelType.DIRECT,
    selectedProducts := ["utd", "zz"],
    productInputs := [("utd", { count := 10, variant := "ANYWHERE", baseDiscount := 0,
                                expiringAmount := 0, existingVariant := "",
                                changeInStats := false })],
    years := 2, method := PricingMethod.MYFPI, rates := [0, 5], productRates := [],
    renewalUpliftRates := [], applyWHT := false, flatPricing := false, rounding := false }

theorem c9_total_with_defaults_witness :
    (calculatePricing cfgC9W).yearlyResults.length = cfgC9W.years
    ∧ rawNet cfgC9W "zz" = 0
    ∧ effRate cfgC9W "utd" 7 = 0 := by
  have h := c9_total_with_defaults cfgC9W (by norm_num [cfgC9W]) (by simp [cfgC9W])
  exact ⟨h.1, h.2.2.1 "zz" rfl, h.2.2.2.1 "utd" 7 (by norm_num [effRates, cfgC9W])⟩

/-- The combo renewal scenario of the spec: both products selected,
FULFILMENT, WHT on, the per-bed product renewing at its own variant
(base tier) with expiring 3000 and uplift 5%, the per-physician product a
plain same-variant renewal. -/
def cfgC3X : DealConfiguration :=
  { dealType := DealType.RENEWAL, channel := ChannelType.FULFILMENT,
    selectedProducts := ["utd", "ld"],
    productInputs :=
      [("utd", { count := 0, variant := "ANYWHERE", baseDiscount := 0,
                 expiringAmount := 10000, existingVariant := "ANYWHERE",
                 changeInStats := false }),
       ("ld", { count := 0, variant := "BASE PKG", baseDiscount := 0,
                expiringAmount := 3000, existingVariant := "BASE PKG",
                changeInStats := false })],
    years := 1, method := PricingMethod.MYFPI, rates := [0], productRates := [],
    renewalUpliftRates := [("ld", 5)], applyWHT := true, flatPricing := false,
    rounding := false }

lemma cfgC3X_ld_raw : rawNet cfgC3X "ld" = 3150 := by
  simp [rawNet, year1Pair, ldRenewalPair, existingOf, baseNetOf, baseGrossOf, listRateOf,
    inputOf, upliftOf, findProduct, AVAILABLE_PRODUCTS, LD_VARIANTS, List.lookup, cfgC3X]
  all_goals norm_num

lemma cfgC3X_utd_raw : rawNet cfgC3X "utd" = 10000 := by
  simp [rawNet, year1Pair, utdRenewalPair, utdPathPrice, existingOf, baseNetOf, baseGrossOf,
    listRateOf, inputOf, upliftOf, findProduct, AVAILABLE_PRODUCTS, UTD_VARIANTS, List.lookup,
    cfgC3X, WHT_FACTOR]
  all_goals norm_num

lemma cfgC3X_memU : "utd" ∈ cfgC3X.selectedProducts := by
  rw [show cfgC3X.selectedProducts = ["utd", "ld"] from rfl]
  simp

lemma cfgC3X_memL : "ld" ∈ cfgC3X.selectedProducts := by
  rw [show cfgC3X.selectedProducts = ["utd", "ld"] from rfl]
  simp

lemma cfgC3X_combo : activeComboFloor cfgC3X = 80000 / 19 := by
  simp only [activeComboFloor]
  rw [if_pos (by decide : cfgC3X.applyWHT = true)]
  norm_num [COMBO_FLOOR_LD_RAW, WHT_FACTOR]

lemma cfgC3X_ld_floor : flooredNet cfgC3X "ld" = 80000 / 19 := by
  simp only [flooredNet]
  rw [if_pos ⟨cfgC3X_memU, cfgC3X_memL⟩,
    if_pos ⟨by trivial, by rw [cfgC3X_ld_raw, cfgC3X_combo]; norm_num⟩, cfgC3X_combo]

lemma cfgC3X_utd_floor : flooredNet cfgC3X "utd" = 10000 := by
  simp only [flooredNet]
  rw [if_pos ⟨cfgC3X_memU, cfgC3X_memL⟩,
    if_neg (by rintro ⟨h, -⟩; exact absurd h (by decide)), cfgC3X_utd_raw]

lemma cfgC3X_ft : floorTriggered cfgC3X = true := by
  simp only [floorTriggered]
  rw [if_pos ⟨cfgC3X_memU, cfgC3X_memL⟩, decide_eq_true_eq, cfgC3X_ld_raw, cfgC3X_combo]
  norm_num

lemma cfgC3X_sched_ld : schedFinal cfgC3X "ld" = [80000 / 19] := by
  simp only [schedFinal, roundSchedule, flatten, rawSchedule]
  rw [if_neg (by decide : ¬ (cfgC3X.rounding = true)),
    if_neg (by decide : ¬ (cfgC3X.flatPricing = true ∧ 1 < cfgC3X.years)),
    if_pos (by decide : cfgC3X.method = PricingMethod.MYFPI),
    show cfgC3X.years = 1 from rfl, show (List.range 1) = [0] from rfl,
    List.map_cons, List.map_nil,
    show myfpiVal (effRate cfgC3X "ld") (flooredNet cfgC3X "ld") 0
      = flooredNet cfgC3X "ld" from rfl, cfgC3X_ld_floor]

lemma cfgC3X_sched_utd : schedFinal cfgC3X "utd" = [10000] := by
  simp only [schedFinal, roundSchedule, flatten, rawSchedule]
  rw [if_neg (by decide : ¬ (cfgC3X.rounding = true)),
    if_neg (by decide : ¬ (cfgC3X.flatPricing = true ∧ 1 < cfgC3X.years)),
    if_pos (by decide : cfgC3X.method = PricingMethod.MYFPI),
    show cfgC3X.years = 1 from rfl, show (List.range 1) = [0] from rfl,
    List.map_cons, List.map_nil,
    show myfpiVal (effRate cfgC3X "utd") (flooredNet cfgC3X "utd") 0
      = flooredNet cfgC3X "utd" from rfl, cfgC3X_utd_floor]

lemma cfgC3X_trb : totalRenewalBase cfgC3X = 13150 := by
  have hutd : renewalBaseOf cfgC3X "utd" = 10000 := by
    simp [renewalBaseOf, year1Pair, utdRenewalPair, utdPathPrice, existingOf, baseNetOf,
      baseGrossOf, listRateOf, inputOf, upliftOf, findProduct, AVAILABLE_PRODUCTS,
      UTD_VARIANTS, List.lookup, cfgC3X, WHT_FACTOR]
    all_goals norm_num
  have hld : renewalBaseOf cfgC3X "ld" = 3150 := by
    simp [renewalBaseOf, year1Pair, ldRenewalPair, existingOf, baseNetOf, baseGrossOf,
      listRateOf, inputOf, upliftOf, findProduct, AVAILABLE_PRODUCTS, LD_VARIANTS,
      List.lookup, cfgC3X]
    all_goals norm_num
  unfold totalRenewalBase
  rw [show cfgC3X.selectedProducts = ["utd", "ld"] from rfl, List.map_cons, List.map_cons,
    List.map_nil, hutd, hld, List.sum_cons, List.sum_cons, List.sum_nil]
  norm_num

lemma cfgC3X_upsell : (calculatePricing cfgC3X).upsellACV = 20150 / 19 := by
  unfold calculatePricing
  rw [show cfgC3X.selectedProducts.map (fun p => (p, schedFinal cfgC3X p))
      = [("utd", [10000]), ("ld", [80000 / 19])] by
    rw [show cfgC3X.selectedProducts = ["utd", "ld"] from rfl, List.map_cons, List.map_cons,
      List.map_nil, cfgC3X_sched_utd, cfgC3X_sched_ld]]
  rw [cfgC3X_trb]
  show (if cfgC3X.dealType = DealType.RENEWAL then
      max 0 ((((List.range cfgC3X.years).map (yearEntry cfgC3X.dealType cfgC3X.channel
          (floorTriggered cfgC3X) [("utd", [10000]), ("ld", [80000 / 19])])).map
          PricingResult.grossUSD).sum / (cfgC3X.years : ℚ) - 13150) else 0) = 20150 / 19
  rw [if_pos (by decide : cfgC3X.dealType = DealType.RENEWAL),
    show cfgC3X.years = 1 from rfl, show (List.range 1) = [0] from rfl]
  rw [List.map_cons, List.map_nil, List.map_cons, List.map_nil, List.sum_cons, List.sum_nil]
  rw [show (yearEntry cfgC3X.dealType cfgC3X.channel (floorTriggered cfgC3X)
      [("utd", [10000]), ("ld", [80000 / 19])] 0).grossUSD
      = 10000 + (80000 / 19 + 0) by simp [yearEntry]]
  rw [max_eq_right (by norm_num)]
  norm_num

lemma cfgC3X_flooradj :
    ((calculatePricing cfgC3X).yearlyResults.getD 0 dummyResult).floorAdjusted = true := by
  rw [yearlyResults_eq, show cfgC3X.years = 1 from rfl, show (List.range 1) = [0] from rfl,
    List.map_cons, List.map_nil, List.getD_cons_zero]
  show ((0 == 0) && floorTriggered cfgC3X) = true
  rw [cfgC3X_ft]
  rfl

/-- C3 counterexample: in the combo renewal scenario the per-bed year-1
value is 3150, it is raised to the combo floor 4000/0.95 and
floorAdjusted is set — but upsellACV is 20150/19 (about 1060.5), not 0:
the floor lifts the realized ACV above the accumulated renewal base even
though the variant is unchanged. -/
theorem c3_combo_floor_counterexample :
    rawNet cfgC3X "ld" = 3150
    ∧ flooredNet cfgC3X "ld" = 4000 / 0.95
    ∧ ((calculatePricing cfgC3X).yearlyResults.getD 0 dummyResult).floorAdjusted = true
    ∧ (calculatePricing cfgC3X).upsellACV = 20150 / 19
    ∧ ¬ ((calculatePricing cfgC3X).upsellACV = 0) := by
  refine ⟨cfgC3X_ld_raw, ?_, cfgC3X_flooradj, cfgC3X_upsell, ?_⟩
  · rw [cfgC3X_ld_floor]
    norm_num
  · rw [cfgC3X_upsell]
    norm_num

/-- C3 amended: in the combo renewal scenario the per-bed year-1 value is
3150, it is raised to the combo floor 4000/0.95, the year-1 entry has
floorAdjusted = true, and upsellACV equals the floor uplift
(combo floor − 3150), which is positive, rather than 0. -/
theorem c3_combo_floor_amended :
    rawNet cfgC3X "ld" = 3150
    ∧ flooredNet cfgC3X "ld" = activeComboFloor cfgC3X
    ∧ activeComboFloor cfgC3X = 4000 / 0.95
    ∧ ((calculatePricing cfgC3X).yearlyResults.getD 0 dummyResult).floorAdjusted = true
    ∧ (calculatePricing cfgC3X).upsellACV = activeComboFloor cfgC3X - 3150
    ∧ 0 < (calculatePricing cfgC3X).upsellACV := by
  refine ⟨cfgC3X_ld_raw, ?_, ?_, cfgC3X_flooradj, ?_, ?_⟩
  · rw [cfgC3X_ld_floor, cfgC3X_combo]
  · rw [cfgC3X_combo]
    norm_num
  · rw [cfgC3X_upsell, cfgC3X_combo]
    norm_num
  · rw [cfgC3X_upsell]
    norm_num

end CePricing
